import Mathlib

/-!
Shallow embedding of the DirectPV operator's reconciliation engine
(`internal/controller/memcached_controller.go`).  Pure data is translated
directly; interaction with the cluster API (the Resource Store) is modelled
by an explicit `Cluster` state, an injected failure plan for fallible store
calls, and an operation trace recording every store call and event emission
a reconciliation pass performs.  Go panics are modelled by the `PanicOr`
type for the helper builders and by a `panicked` flag on a pass result.
-/

/-- Result of a Go computation that may panic (e.g. out-of-range indexing). -/
inductive PanicOr (α : Type) where
  | panicked
  | ok (val : α)
deriving DecidableEq, Repr

/-- Process environment: `os.LookupEnv` reads from an association list. -/
abbrev GoEnv := List (String × String)

/-- `os.LookupEnv`: first binding of the key, if any. -/
def lookupEnv (env : GoEnv) (key : String) : Option String :=
  (env.find? (fun p => p.1 == key)).map (fun p => p.2)

/-- Go `strings.Split` for a single-character separator. -/
def goSplit (s : String) (sep : Char) : List String :=
  (s.data.splitOn sep).map (fun l => { data := l })

/-- `imageForDeployer`: reads the DIRECTPV_IMAGE environment variable. -/
def imageForDeployer (env : GoEnv) : Except String String :=
  match lookupEnv env "DIRECTPV_IMAGE" with
  | some image => .ok image
  | none => .error "Unable to find DIRECTPV_IMAGE environment variable with the image"

/-- `imageForResizer`: reads the CSI_RESIZER environment variable. -/
def imageForResizer (env : GoEnv) : Except String String :=
  match lookupEnv env "CSI_RESIZER" with
  | some image => .ok image
  | none => .error "Unable to find CSI_RESIZER environment variable with the image"

/-- `imageForProvisioner`: reads the CSI_PROVISIONER environment variable. -/
def imageForProvisioner (env : GoEnv) : Except String String :=
  match lookupEnv env "CSI_PROVISIONER" with
  | some image => .ok image
  | none => .error "Unable to find CSI_PROVISIONER environment variable with the image"

/-- `imageForRegistrar`: reads the CSI_NODE_DRIVER_REGISTRAR environment variable. -/
def imageForRegistrar (env : GoEnv) : Except String String :=
  match lookupEnv env "CSI_NODE_DRIVER_REGISTRAR" with
  | some image => .ok image
  | none => .error "Unable to find CSI_NODE_DRIVER_REGISTRAR environment variable with the image"

/-- `imageForLivenessProbe`: reads the LIVENESS_PROBE environment variable. -/
def imageForLivenessProbe (env : GoEnv) : Except String String :=
  match lookupEnv env "LIVENESS_PROBE" with
  | some image => .ok image
  | none => .error "Unable to find LIVENESS_PROBE environment variable with the image"

/-- The fixed label map built by `labelsForMemcached`. -/
def labelList (name imageTag : String) : List (String × String) :=
  [("app.kubernetes.io/name", "Memcached"),
   ("app.kubernetes.io/instance", name),
   ("app.kubernetes.io/version", imageTag),
   ("app.kubernetes.io/part-of", "directpv-operator"),
   ("app.kubernetes.io/created-by", "controller-manager")]

/-- `labelsForMemcached`: when the image env var resolves, the tag is taken as
`strings.Split(image, ":")[1]`, which panics when the split produced fewer
than two elements; when the env var is missing the tag stays empty. -/
def labelsForMemcached (env : GoEnv) (name : String) : PanicOr (List (String × String)) :=
  match imageForDeployer env with
  | .ok image =>
    match (goSplit image ':')[1]? with
    | some tag => .ok (labelList name tag)
    | none => .panicked
  | .error _ => .ok (labelList name "")

/-- Status values of a Kubernetes condition. -/
inductive ConditionStatus where
  | condTrue
  | condFalse
  | condUnknown
deriving DecidableEq, Repr

/-- One status condition (type, status, reason, message). -/
structure Condition where
  ctype : String
  status : ConditionStatus
  reason : String
  message : String
deriving DecidableEq, Repr

/-- `meta.SetStatusCondition`: update in place the condition of the same type,
or append a new one. -/
def setStatusCondition (conds : List Condition) (c : Condition) : List Condition :=
  if conds.any (fun x => x.ctype == c.ctype) then
    conds.map (fun x =>
      if x.ctype == c.ctype then
        { x with status := c.status, reason := c.reason, message := c.message }
      else x)
  else conds ++ [c]

/-- The Deployer custom resource (the ManagedResource). -/
structure Deployer where
  name : String
  nspace : String
  size : Int
  containerPort : Int := 0
  conditions : List Condition := []
  finalizers : List String := []
  deletionTimestamp : Option Nat := none
deriving DecidableEq, Repr

/-- A DaemonSet child object (the AgentWorkload), as far as the engine
inspects it. -/
structure DaemonSetObj where
  name : String
  nspace : String
  matchLabels : List (String × String)
  images : List String
  ownerName : String
deriving DecidableEq, Repr

/-- A Deployment child object (the ServiceWorkload), as far as the engine
inspects it. -/
structure DeploymentObj where
  name : String
  nspace : String
  replicas : Int
  matchLabels : List (String × String) := []
  images : List String := []
  ownerName : String := ""
deriving DecidableEq, Repr

deriving instance DecidableEq for Except

def deployerFinalizer : String := "cache.example.com/finalizer"

def typeAvailableDeployer : String := "Available"

def typeDegradedDeployer : String := "Degraded"

/-- `controllerutil.ContainsFinalizer`. -/
def containsFinalizer (d : Deployer) (f : String) : Bool :=
  d.finalizers.contains f

/-- `daemonSetForDeployer`: builds the DaemonSet.  Labels are computed first
(possibly panicking); images may be missing (error).  The object's name is the
fixed string "node-server" in the resource's namespace, owned by the
resource. -/
def daemonSetForDeployer (env : GoEnv) (memcached : Deployer) :
    PanicOr (Except String DaemonSetObj) :=
  match labelsForMemcached env memcached.name with
  | .panicked => .panicked
  | .ok ls =>
    match imageForDeployer env with
    | .error e => .ok (.error e)
    | .ok controllerImage =>
      match imageForRegistrar env with
      | .error e => .ok (.error e)
      | .ok registrarImage =>
        match imageForLivenessProbe env with
        | .error e => .ok (.error e)
        | .ok livenessProbeImage =>
          .ok (.ok { name := "node-server", nspace := memcached.nspace,
                     matchLabels := ls,
                     images := [registrarImage, controllerImage, controllerImage,
                                livenessProbeImage],
                     ownerName := memcached.name })

/-- `deploymentForDeployer`: builds the Deployment, named after the resource,
with `replicas := memcached.size`. -/
def deploymentForDeployer (env : GoEnv) (memcached : Deployer) :
    PanicOr (Except String DeploymentObj) :=
  match labelsForMemcached env memcached.name with
  | .panicked => .panicked
  | .ok ls =>
    match imageForDeployer env with
    | .error e => .ok (.error e)
    | .ok controllerImage =>
      match imageForResizer env with
      | .error e => .ok (.error e)
      | .ok resizerImage =>
        match imageForProvisioner env with
        | .error e => .ok (.error e)
        | .ok provisionerImage =>
          .ok (.ok { name := memcached.name, nspace := memcached.nspace,
                     replicas := memcached.size,
                     matchLabels := ls,
                     images := [provisionerImage, controllerImage, resizerImage],
                     ownerName := memcached.name })

/-- Whether label derivation panics for this environment (DIRECTPV_IMAGE set
to a value whose colon-split has no second element). -/
def labelsPanic (env : GoEnv) : Bool :=
  match lookupEnv env "DIRECTPV_IMAGE" with
  | some image => ((goSplit image ':')[1]?).isNone
  | none => false

/-- Outcome of a store lookup: object found, definitively not found, or an
infrastructure error. -/
inductive GetOutcome where
  | found
  | notFound
  | errored
deriving DecidableEq, Repr

/-- One external call a reconciliation pass performs, in order: status
updates, object updates (finalizers), re-fetches of the custom resource,
child-object lookups/creates/updates, and event emissions. -/
inductive Op where
  | updateStatus (conds : List Condition) (ok : Bool)
  | updateObj (finalizers : List String) (ok : Bool)
  | refetch (ok : Bool)
  | getDaemonSet (name ns : String) (outcome : GetOutcome)
  | createDaemonSet (name ns : String) (ok : Bool)
  | getDeployment (name ns : String) (outcome : GetOutcome)
  | createDeployment (name ns : String) (ok : Bool)
  | updateDeployment (replicas : Int) (ok : Bool)
  | emitEvent (etype reason : String)
deriving DecidableEq, Repr

/-- Whether an operation writes to the Resource Store. -/
def Op.isWrite : Op → Bool
  | .updateStatus _ _ => true
  | .updateObj _ _ => true
  | .createDaemonSet _ _ _ => true
  | .createDeployment _ _ _ => true
  | .updateDeployment _ _ => true
  | _ => false

/-- Whether an operation is an event emission. -/
def Op.isEvent : Op → Bool
  | .emitEvent _ _ => true
  | _ => false

/-- The Resource Store's state relevant to one Deployer. -/
structure Cluster where
  deployer : Option Deployer
  daemonSets : List DaemonSetObj := []
  deployments : List DeploymentObj := []
deriving DecidableEq, Repr

/-- `r.Get` on the Deployer by request name. -/
def getDeployer (c : Cluster) (reqName : String) : Option Deployer :=
  match c.deployer with
  | some d => if d.name == reqName then some d else none
  | none => none

/-- `r.Status().Update`: persist the in-memory condition list. -/
def writeStatus (c : Cluster) (conds : List Condition) : Cluster :=
  { c with deployer := c.deployer.map (fun sd => { sd with conditions := conds }) }

/-- `r.Update` on the Deployer: persist the in-memory finalizer list. -/
def writeFinalizers (c : Cluster) (fins : List String) : Cluster :=
  { c with deployer := c.deployer.map (fun sd => { sd with finalizers := fins }) }

/-- `r.Get` on a DaemonSet by name and namespace. -/
def findDaemonSet (c : Cluster) (name ns : String) : Option DaemonSetObj :=
  c.daemonSets.find? (fun x => x.name == name && x.nspace == ns)

/-- `r.Create` on a DaemonSet. -/
def addDaemonSet (c : Cluster) (ds : DaemonSetObj) : Cluster :=
  { c with daemonSets := c.daemonSets ++ [ds] }

/-- `r.Get` on a Deployment by name and namespace. -/
def findDeployment (c : Cluster) (name ns : String) : Option DeploymentObj :=
  c.deployments.find? (fun x => x.name == name && x.nspace == ns)

/-- `r.Create` on a Deployment. -/
def addDeployment (c : Cluster) (dep : DeploymentObj) : Cluster :=
  { c with deployments := c.deployments ++ [dep] }

/-- `r.Update` on an existing Deployment: set its replica count. -/
def setDeploymentReplicas (c : Cluster) (name ns : String) (n : Int) : Cluster :=
  { c with deployments := c.deployments.map (fun x =>
      if x.name == name && x.nspace == ns then { x with replicas := n } else x) }

/-- Injected failure schedule for the fallible store calls of one pass
(true = that call fails).  Create calls additionally fail when an object of
the same name and namespace already exists. -/
structure FailPlan where
  getDeployerErr : Bool := false
  statusInitFail : Bool := false
  refetchInitFail : Bool := false
  addFinUpdateFail : Bool := false
  degradedUnknownFail : Bool := false
  refetchDelFail : Bool := false
  degradedTrueFail : Bool := false
  removeFinUpdateFail : Bool := false
  getDaemonSetErr : Bool := false
  defineDSStatusFail : Bool := false
  createDaemonSetFail : Bool := false
  getDeploymentErr : Bool := false
  defineDepStatusFail : Bool := false
  createDeploymentFail : Bool := false
  updateDeploymentFail : Bool := false
  refetchDriftFail : Bool := false
  resizingStatusFail : Bool := false
  availableStatusFail : Bool := false
deriving DecidableEq, Repr

/-- Result of one reconciliation pass: the returned `ctrl.Result` (requeue
flag and delay in minutes), whether an error was returned, whether the pass
aborted by panic, the resulting store state, and the trace of operations. -/
structure PassResult where
  requeue : Bool
  requeueAfterMin : Nat
  isErr : Bool
  panicked : Bool := false
  cluster : Cluster
  ops : List Op
deriving DecidableEq, Repr

/-- A pass that returns a non-nil error (empty `ctrl.Result`). -/
def errPass (c : Cluster) (ops : List Op) : PassResult :=
  { requeue := false, requeueAfterMin := 0, isErr := true, cluster := c, ops := ops }

/-- A pass that returns successfully. -/
def okPass (c : Cluster) (ops : List Op) (rq : Bool) (afterMin : Nat) : PassResult :=
  { requeue := rq, requeueAfterMin := afterMin, isErr := false, cluster := c, ops := ops }

/-- A pass aborted by a Go panic after the recorded operations. -/
def panicPass (c : Cluster) (ops : List Op) : PassResult :=
  { requeue := false, requeueAfterMin := 0, isErr := false, panicked := true,
    cluster := c, ops := ops }

/-- Prepend already-performed operations to a pass result. -/
def withOps (pre : List Op) (r : PassResult) : PassResult :=
  { r with ops := pre ++ r.ops }

/-- Fixed placeholder text for an injected store error. -/
def storeErrMsg : String := "error"

def initialCondition : Condition :=
  { ctype := typeAvailableDeployer, status := .condUnknown, reason := "Reconciling",
    message := "Starting reconciliation" }

def degradedUnknownCondition (name : String) : Condition :=
  { ctype := typeDegradedDeployer, status := .condUnknown, reason := "Finalizing",
    message := "Performing finalizer operations for the custom resource: " ++ name ++ " " }

def degradedTrueCondition (name : String) : Condition :=
  { ctype := typeDegradedDeployer, status := .condTrue, reason := "Finalizing",
    message := "Finalizer operations for custom resource " ++ name ++
      " name were successfully accomplished" }

def dsFailCondition (name msg : String) : Condition :=
  { ctype := typeAvailableDeployer, status := .condFalse, reason := "Reconciling",
    message := "Failed to create DaemonSet for the custom resource (" ++ name ++
      "): (" ++ msg ++ ")" }

def depFailCondition (name msg : String) : Condition :=
  { ctype := typeAvailableDeployer, status := .condFalse, reason := "Reconciling",
    message := "Failed to create Deployment for the custom resource (" ++ name ++
      "): (" ++ msg ++ ")" }

def resizingCondition (name msg : String) : Condition :=
  { ctype := typeAvailableDeployer, status := .condFalse, reason := "Resizing",
    message := "Failed to update the size for the custom resource (" ++ name ++
      "): (" ++ msg ++ ")" }

def steadyCondition (name : String) (size : Int) : Condition :=
  { ctype := typeAvailableDeployer, status := .condTrue, reason := "Reconciling",
    message := "Deployment for custom resource (" ++ name ++ ") with " ++
      toString size ++ " replicas created successfully" }

/-- Final section of a live pass: unconditionally set `Available=True` and
persist the status, then return success with no requeue. -/
def steadyPhase (plan : FailPlan) (store : Cluster) (d : Deployer) : PassResult :=
  let conds := setStatusCondition d.conditions (steadyCondition d.name d.size)
  if plan.availableStatusFail then errPass store [Op.updateStatus conds false]
  else okPass (writeStatus store conds) [Op.updateStatus conds true] false 0

/-- Replica-drift section: if the found Deployment's replicas differ from
`spec.size`, update them and requeue immediately; on update failure re-fetch
the resource, set `Available=False/Resizing`, persist, and return the error.
Otherwise continue to the steady-state section. -/
def driftPhase (plan : FailPlan) (store : Cluster) (d : Deployer)
    (foundDep : DeploymentObj) (reqName : String) : PassResult :=
  if foundDep.replicas == d.size then steadyPhase plan store d
  else
    if plan.updateDeploymentFail then
      if plan.refetchDriftFail then
        errPass store [Op.updateDeployment d.size false, Op.refetch false]
      else
        match getDeployer store reqName with
        | none => errPass store [Op.updateDeployment d.size false, Op.refetch false]
        | some d2 =>
          if plan.resizingStatusFail then
            errPass store
              [Op.updateDeployment d.size false, Op.refetch true,
               Op.updateStatus
                 (setStatusCondition d2.conditions (resizingCondition d2.name storeErrMsg))
                 false]
          else
            errPass
              (writeStatus store
                (setStatusCondition d2.conditions (resizingCondition d2.name storeErrMsg)))
              [Op.updateDeployment d.size false, Op.refetch true,
               Op.updateStatus
                 (setStatusCondition d2.conditions (resizingCondition d2.name storeErrMsg))
                 true]
    else
      okPass (setDeploymentReplicas store foundDep.name foundDep.nspace d.size)
        [Op.updateDeployment d.size true] true 0

/-- Deployment (ServiceWorkload) section: look the Deployment up under the
resource's name in namespace "directpv"; if absent, build and create it and
return `RequeueAfter` one minute; otherwise continue to the drift section. -/
def deploymentPhase (env : GoEnv) (plan : FailPlan) (store : Cluster) (d : Deployer)
    (reqName : String) : PassResult :=
  if plan.getDeploymentErr then
    errPass store [Op.getDeployment d.name "directpv" GetOutcome.errored]
  else
    match findDeployment store d.name "directpv" with
    | some foundDep =>
      withOps [Op.getDeployment d.name "directpv" GetOutcome.found]
        (driftPhase plan store d foundDep reqName)
    | none =>
      match deploymentForDeployer env d with
      | .panicked => panicPass store [Op.getDeployment d.name "directpv" GetOutcome.notFound]
      | .ok (.error e) =>
        let conds := setStatusCondition d.conditions (depFailCondition d.name e)
        if plan.defineDepStatusFail then
          errPass store
            [Op.getDeployment d.name "directpv" GetOutcome.notFound,
             Op.updateStatus conds false]
        else
          errPass (writeStatus store conds)
            [Op.getDeployment d.name "directpv" GetOutcome.notFound,
             Op.updateStatus conds true]
      | .ok (.ok dep) =>
        if (findDeployment store dep.name dep.nspace).isSome || plan.createDeploymentFail then
          errPass store
            [Op.getDeployment d.name "directpv" GetOutcome.notFound,
             Op.createDeployment dep.name dep.nspace false]
        else
          okPass (addDeployment store dep)
            [Op.getDeployment d.name "directpv" GetOutcome.notFound,
             Op.createDeployment dep.name dep.nspace true] false 1

/-- DaemonSet (AgentWorkload) section: look the DaemonSet up under the
resource's name in namespace "directpv"; if absent, build and create it
(the built object is named "node-server") and fall through to the Deployment
section in the same pass. -/
def daemonSetPhase (env : GoEnv) (plan : FailPlan) (store : Cluster) (d : Deployer)
    (reqName : String) : PassResult :=
  if plan.getDaemonSetErr then
    errPass store [Op.getDaemonSet d.name "directpv" GetOutcome.errored]
  else
    match findDaemonSet store d.name "directpv" with
    | some _found =>
      withOps [Op.getDaemonSet d.name "directpv" GetOutcome.found]
        (deploymentPhase env plan store d reqName)
    | none =>
      match daemonSetForDeployer env d with
      | .panicked => panicPass store [Op.getDaemonSet d.name "directpv" GetOutcome.notFound]
      | .ok (.error e) =>
        let conds := setStatusCondition d.conditions (dsFailCondition d.name e)
        if plan.defineDSStatusFail then
          errPass store
            [Op.getDaemonSet d.name "directpv" GetOutcome.notFound,
             Op.updateStatus conds false]
        else
          errPass (writeStatus store conds)
            [Op.getDaemonSet d.name "directpv" GetOutcome.notFound,
             Op.updateStatus conds true]
      | .ok (.ok ds) =>
        if (findDaemonSet store ds.name ds.nspace).isSome || plan.createDaemonSetFail then
          errPass store
            [Op.getDaemonSet d.name "directpv" GetOutcome.notFound,
             Op.createDaemonSet ds.name ds.nspace false]
        else
          withOps
            [Op.getDaemonSet d.name "directpv" GetOutcome.notFound,
             Op.createDaemonSet ds.name ds.nspace true]
            (deploymentPhase env plan (addDaemonSet store ds) d reqName)

/-- Deletion branch (finalizer present and deletion timestamp set): set
`Degraded=Unknown` and persist, emit the deletion event, re-fetch the
resource, set `Degraded=True` and persist, then remove the finalizer and
persist.  Each persistence failure returns the error immediately. -/
def deletionPhase (plan : FailPlan) (store : Cluster) (d : Deployer)
    (reqName : String) : PassResult :=
  let condsU := setStatusCondition d.conditions (degradedUnknownCondition d.name)
  if plan.degradedUnknownFail then errPass store [Op.updateStatus condsU false]
  else
    let store1 := writeStatus store condsU
    let evOp := Op.emitEvent "Warning" "Deleting"
    if plan.refetchDelFail then
      errPass store1 [Op.updateStatus condsU true, evOp, Op.refetch false]
    else
      match getDeployer store1 reqName with
      | none => errPass store1 [Op.updateStatus condsU true, evOp, Op.refetch false]
      | some d2 =>
        let condsT := setStatusCondition d2.conditions (degradedTrueCondition d2.name)
        if plan.degradedTrueFail then
          errPass store1
            [Op.updateStatus condsU true, evOp, Op.refetch true,
             Op.updateStatus condsT false]
        else
          let store2 := writeStatus store1 condsT
          let d3 : Deployer := { d2 with conditions := condsT }
          if containsFinalizer d3 deployerFinalizer then
            let fins := d3.finalizers.filter (fun f => f != deployerFinalizer)
            if plan.removeFinUpdateFail then
              errPass store2
                [Op.updateStatus condsU true, evOp, Op.refetch true,
                 Op.updateStatus condsT true, Op.updateObj fins false]
            else
              okPass (writeFinalizers store2 fins)
                [Op.updateStatus condsU true, evOp, Op.refetch true,
                 Op.updateStatus condsT true, Op.updateObj fins true] false 0
          else
            okPass store2
              [Op.updateStatus condsU true, evOp, Op.refetch true,
               Op.updateStatus condsT true] true 0

/-- After the finalizer-add section: either run the deletion branch (when the
deletion timestamp is set; a no-op success when the finalizer is absent) or
continue with desired-state convergence. -/
def deletionOrConverge (env : GoEnv) (plan : FailPlan) (store : Cluster)
    (d : Deployer) (reqName : String) : PassResult :=
  if d.deletionTimestamp.isSome then
    if containsFinalizer d deployerFinalizer then deletionPhase plan store d reqName
    else okPass store [] false 0
  else daemonSetPhase env plan store d reqName

/-- Section after status initialization: add the finalizer whenever it is
absent (no deletion-timestamp guard, as in the source) and persist, then
check for deletion or converge. -/
def livePhase (env : GoEnv) (plan : FailPlan) (store : Cluster) (d : Deployer)
    (reqName : String) : PassResult :=
  if containsFinalizer d deployerFinalizer then
    deletionOrConverge env plan store d reqName
  else
    let dA : Deployer := { d with finalizers := d.finalizers ++ [deployerFinalizer] }
    if plan.addFinUpdateFail then errPass store [Op.updateObj dA.finalizers false]
    else
      withOps [Op.updateObj dA.finalizers true]
        (deletionOrConverge env plan (writeFinalizers store dA.finalizers) dA reqName)

/-- One reconciliation pass (`Reconcile`): fetch the resource (not found ends
the pass successfully), initialize the status condition when the condition
set is empty and re-fetch, then run the finalizer/deletion/convergence
sections. -/
def reconcile (env : GoEnv) (plan : FailPlan) (store : Cluster)
    (reqName : String) : PassResult :=
  if plan.getDeployerErr then errPass store []
  else
    match getDeployer store reqName with
    | none => okPass store [] false 0
    | some d0 =>
      if d0.conditions.isEmpty then
        let conds := setStatusCondition d0.conditions initialCondition
        if plan.statusInitFail then errPass store [Op.updateStatus conds false]
        else
          let store1 := writeStatus store conds
          if plan.refetchInitFail then
            errPass store1 [Op.updateStatus conds true, Op.refetch false]
          else
            match getDeployer store1 reqName with
            | none => errPass store1 [Op.updateStatus conds true, Op.refetch false]
            | some d1 =>
              withOps [Op.updateStatus conds true, Op.refetch true]
                (livePhase env plan store1 d1 reqName)
      else livePhase env plan store d0 reqName

/-! ### Concrete fixtures used by witnesses and counterexamples -/

/-- An environment with all five image variables set to tagged references. -/
def envGood : GoEnv :=
  [("DIRECTPV_IMAGE", "quay.io/minio/directpv:v4"),
   ("CSI_RESIZER", "resizer:v1"),
   ("CSI_PROVISIONER", "provisioner:v2"),
   ("CSI_NODE_DRIVER_REGISTRAR", "registrar:v2"),
   ("LIVENESS_PROBE", "liveness:v2")]

/-- A live resource, already initialized, with its finalizer attached. -/
def liveDeployer : Deployer :=
  { name := "deployer-sample", nspace := "directpv", size := 3,
    conditions := [initialCondition], finalizers := [deployerFinalizer] }

/-- The live resource with no child objects yet. -/
def bareCluster : Cluster := { deployer := some liveDeployer }

/-- A resource marked for deletion whose finalizer is already absent. -/
def delNoFinDeployer : Deployer :=
  { name := "deployer-sample", nspace := "directpv", size := 3,
    conditions := [initialCondition], finalizers := [],
    deletionTimestamp := some 1 }

def delNoFinCluster : Cluster := { deployer := some delNoFinDeployer }

/-- A resource marked for deletion with its finalizer still present. -/
def delFinDeployer : Deployer :=
  { name := "deployer-sample", nspace := "directpv", size := 3,
    conditions := [initialCondition], finalizers := [deployerFinalizer],
    deletionTimestamp := some 1 }

def delFinCluster : Cluster := { deployer := some delFinDeployer }

/-- A resource in steady state: `Available=True` already recorded. -/
def steadyDeployer : Deployer :=
  { name := "deployer-sample", nspace := "directpv", size := 3,
    conditions := [steadyCondition "deployer-sample" 3],
    finalizers := [deployerFinalizer] }

/-- A DaemonSet stored under the name the lookup uses. -/
def steadyDS : DaemonSetObj :=
  { name := "deployer-sample", nspace := "directpv", matchLabels := [],
    images := [], ownerName := "deployer-sample" }

/-- A Deployment matching the desired replica count. -/
def steadyDep : DeploymentObj :=
  { name := "deployer-sample", nspace := "directpv", replicas := 3 }

/-- The steady-state cluster: both children exist, replicas match. -/
def steadyCluster : Cluster :=
  { deployer := some steadyDeployer, daemonSets := [steadyDS],
    deployments := [steadyDep] }

/-! ### Counterexamples and code-bug evaluations -/

/-- C1 counterexample: on a live, initialized resource with no children, the
pass whose AgentWorkload (DaemonSet) creation succeeds does not end there: the
same pass also looks up and creates the ServiceWorkload (Deployment). -/
theorem C1_agent_create_not_pass_end_cex :
    ((reconcile envGood {} bareCluster "deployer-sample").ops.contains
        (Op.createDaemonSet "node-server" "directpv" true)
      && (reconcile envGood {} bareCluster "deployer-sample").ops.contains
        (Op.getDeployment "deployer-sample" "directpv" GetOutcome.notFound)
      && (reconcile envGood {} bareCluster "deployer-sample").ops.contains
        (Op.createDeployment "deployer-sample" "directpv" true)) = true := by
  decide

/-- The DaemonSet the builder produces for the sample resource: its name is
the fixed string "node-server", not the resource's name. -/
def builtNodeServerDS : DaemonSetObj :=
  { name := "node-server", nspace := "directpv",
    matchLabels := labelList "deployer-sample" "v4",
    images := ["registrar:v2", "quay.io/minio/directpv:v4",
               "quay.io/minio/directpv:v4", "liveness:v2"],
    ownerName := "deployer-sample" }

/-- C2: the DaemonSet lookup uses the resource name ("deployer-sample") but
the created DaemonSet is named "node-server"; the next pass's lookup misses
the object created by the previous pass and the re-creation fails because the
object already exists, so the pass errors. -/
theorem C2_daemonset_name_mismatch :
    ((decide (daemonSetForDeployer envGood liveDeployer =
        PanicOr.ok (Except.ok builtNodeServerDS)))
      && ((reconcile envGood {} bareCluster "deployer-sample").cluster.daemonSets.map
            DaemonSetObj.name == ["node-server"])
      && (reconcile envGood {}
            (reconcile envGood {} bareCluster "deployer-sample").cluster
            "deployer-sample").ops.contains
          (Op.getDaemonSet "deployer-sample" "directpv" GetOutcome.notFound)
      && (reconcile envGood {}
            (reconcile envGood {} bareCluster "deployer-sample").cluster
            "deployer-sample").ops.contains
          (Op.createDaemonSet "node-server" "directpv" false)
      && (reconcile envGood {}
            (reconcile envGood {} bareCluster "deployer-sample").cluster
            "deployer-sample").isErr) = true := by
  decide

/-- C3 counterexample: on a resource marked for deletion whose finalizer is
absent (the state after a removal), the pass fires the add-finalizer write,
so the transition is not guarded by the deletion timestamp and the finalizer
is re-added after removal. -/
theorem C3_finalizer_readded_cex :
    (delNoFinDeployer.deletionTimestamp.isSome
      && !(containsFinalizer delNoFinDeployer deployerFinalizer)
      && (reconcile envGood {} delNoFinCluster "deployer-sample").ops.contains
        (Op.updateObj [deployerFinalizer] true)) = true := by
  decide

/-- C4 counterexample: a pass on a deletion-marked resource with the
finalizer absent is not a write-free no-op: it performs four writes
(finalizer add, two status updates, finalizer removal) and emits the cleanup
event. -/
theorem C4_deletion_nofin_writes_cex :
    (((reconcile envGood {} delNoFinCluster "deployer-sample").ops.filter
        Op.isWrite).length == 4
      && (reconcile envGood {} delNoFinCluster "deployer-sample").ops.contains
        (Op.emitEvent "Warning" "Deleting")) = true := by
  decide

/-- C5 counterexample: a pass on a resource already in steady state still
issues one status-update write to the Resource Store, so the pass is not
write-free. -/
theorem C5_steady_state_write_cex :
    (((reconcile envGood {} steadyCluster "deployer-sample").ops.filter
        Op.isWrite).length == 1) = true := by
  decide

/-- C9 counterexample: when the finalizer-removal update fails in the first
deletion pass, the replayed pass emits the cleanup event again, so one
deletion (the timestamp is set once and never cleared) emits two events. -/
theorem C9_event_twice_cex :
    (((reconcile envGood { removeFinUpdateFail := true } delFinCluster
          "deployer-sample").ops
        ++ (reconcile envGood {}
              (reconcile envGood { removeFinUpdateFail := true } delFinCluster
                "deployer-sample").cluster "deployer-sample").ops).filter
        Op.isEvent).length = 2 := by
  decide

/-! ### General lemmas about the store operations -/

/-- A successful Deployer fetch exposes the stored object and the name match. -/
theorem getDeployer_eq_some {store : Cluster} {reqName : String} {d : Deployer}
    (h : getDeployer store reqName = some d) :
    store.deployer = some d ∧ (d.name == reqName) = true := by
  unfold getDeployer at h
  split at h
  next d0 hs =>
    split at h
    next hn =>
      cases h
      exact ⟨hs, hn⟩
    next hn => cases h
  next hs => cases h

/-- Fetch after a status write returns the object with the written conditions. -/
theorem getDeployer_writeStatus {store : Cluster} {reqName : String} {d : Deployer}
    (h : getDeployer store reqName = some d) (conds : List Condition) :
    getDeployer (writeStatus store conds) reqName =
      some { d with conditions := conds } := by
  obtain ⟨hs, hn⟩ := getDeployer_eq_some h
  unfold getDeployer writeStatus
  simp [hs, hn]

/-- Fetch after a finalizer write returns the object with the written
finalizers. -/
theorem getDeployer_writeFinalizers {store : Cluster} {reqName : String} {d : Deployer}
    (h : getDeployer store reqName = some d) (fins : List String) :
    getDeployer (writeFinalizers store fins) reqName =
      some { d with finalizers := fins } := by
  obtain ⟨hs, hn⟩ := getDeployer_eq_some h
  unfold getDeployer writeFinalizers
  simp [hs, hn]

/-- Writing back the conditions the stored object already carries leaves the
store unchanged. -/
theorem writeStatus_self {store : Cluster} {reqName : String} {d : Deployer}
    (h : getDeployer store reqName = some d) :
    writeStatus store d.conditions = store := by
  obtain ⟨hs, hn⟩ := getDeployer_eq_some h
  unfold writeStatus
  rw [hs]
  show ({ store with deployer := some d } : Cluster) = store
  rw [← hs]

/-- Setting a condition on the empty condition set yields that condition. -/
theorem setStatusCondition_nil (c : Condition) : setStatusCondition [] c = [c] := by
  simp [setStatusCondition]

/-- A replica-count update rewrites exactly the found Deployment. -/
theorem find_setReplicas (l : List DeploymentObj) (n ns : String) (k : Int)
    (w : DeploymentObj)
    (hw : l.find? (fun x => x.name == n && x.nspace == ns) = some w) :
    (l.map (fun x => if x.name == n && x.nspace == ns then { x with replicas := k }
        else x)).find? (fun x => x.name == n && x.nspace == ns) =
      some { w with replicas := k } := by
  induction l with
  | nil => cases hw
  | cons a l ih =>
    rw [List.find?_cons] at hw
    cases ha : (a.name == n && a.nspace == ns) with
    | true =>
      rw [ha] at hw
      obtain rfl : a = w := Option.some.inj hw
      have ha2 : a.name = n ∧ a.nspace = ns := by simpa using ha
      simp [List.find?_cons, ha2.1, ha2.2]
    | false =>
      rw [ha] at hw
      simp only [List.map_cons, ha, Bool.false_eq_true, if_false]
      rw [List.find?_cons, ha]
      exact ih hw

/-- A found Deployment carries the looked-up name and namespace. -/
theorem findDeployment_some {store : Cluster} {n ns : String} {w : DeploymentObj}
    (h : findDeployment store n ns = some w) :
    w.name = n ∧ w.nspace = ns := by
  unfold findDeployment at h
  have := List.find?_some h
  simp only [Bool.and_eq_true, beq_iff_eq] at this
  exact this

/-- The Deployment section always records its lookup first. -/
theorem deploymentPhase_ops_shape (env : GoEnv) (plan : FailPlan) (store : Cluster)
    (d : Deployer) (reqName : String) :
    ∃ o rest, (deploymentPhase env plan store d reqName).ops =
      Op.getDeployment d.name "directpv" o :: rest := by
  unfold deploymentPhase
  split
  · exact ⟨_, _, rfl⟩
  · split
    · exact ⟨_, _, rfl⟩
    · split
      · exact ⟨_, _, rfl⟩
      · split
        · exact ⟨_, _, rfl⟩
        · exact ⟨_, _, rfl⟩
      · split
        · exact ⟨_, _, rfl⟩
        · exact ⟨_, _, rfl⟩

/-- A list obtained by appending an element contains it. -/
theorem contains_append_self (l : List String) (a : String) :
    (l ++ [a]).contains a = true := by
  simp

/-- C6: on a pass whose resource has an empty condition set, the first
persisted write is the `Available=Unknown/Reconciling` condition; when that
write succeeds the resource is re-fetched before any further work, and when
it fails the pass returns the error with no finalizer or child-object work
performed. -/
theorem C6_status_initialized_first (env : GoEnv) (plan : FailPlan) (store : Cluster)
    (reqName : String) (d : Deployer)
    (hplan : plan.getDeployerErr = false)
    (hfound : getDeployer store reqName = some d)
    (hconds : d.conditions = []) :
    (((reconcile env plan store reqName).ops.filter Op.isWrite).head? =
        some (Op.updateStatus [initialCondition] (!plan.statusInitFail)))
    ∧ (plan.statusInitFail = true →
        (reconcile env plan store reqName).isErr = true ∧
        (reconcile env plan store reqName).ops = [Op.updateStatus [initialCondition] false])
    ∧ (plan.statusInitFail = false →
        ∃ rest, (reconcile env plan store reqName).ops =
          Op.updateStatus [initialCondition] true ::
            Op.refetch (!plan.refetchInitFail) :: rest) := by
  have hempty : d.conditions.isEmpty = true := by rw [hconds]; rfl
  unfold reconcile
  rw [hplan, hfound]
  simp only [Bool.false_eq_true, if_false, hempty, if_true, hconds, setStatusCondition_nil]
  cases hsf : plan.statusInitFail with
  | true =>
    simp [errPass, Op.isWrite]
  | false =>
    cases hrf : plan.refetchInitFail with
    | true =>
      simp [errPass, Op.isWrite]
    | false =>
      rw [getDeployer_writeStatus hfound [initialCondition]]
      simp [withOps, Op.isWrite]

/-- C7: on a live resource whose ServiceWorkload replica count differs from
`spec.size`, the pass updates the workload to the desired count and requests
an immediate requeue; when that update fails it re-fetches the resource,
persists `Available=False/Resizing`, and propagates the error. -/
theorem C7_drift_correction (env : GoEnv) (plan : FailPlan) (store : Cluster)
    (reqName : String) (d : Deployer) (ds0 : DaemonSetObj) (w : DeploymentObj)
    (hplan : plan.getDeployerErr = false)
    (hfound : getDeployer store reqName = some d)
    (hconds : d.conditions.isEmpty = false)
    (hfin : containsFinalizer d deployerFinalizer = true)
    (hts : d.deletionTimestamp = none)
    (hdsGet : plan.getDaemonSetErr = false)
    (hds : findDaemonSet store d.name "directpv" = some ds0)
    (hdepGet : plan.getDeploymentErr = false)
    (hdep : findDeployment store d.name "directpv" = some w)
    (hdrift : (w.replicas == d.size) = false) :
    (plan.updateDeploymentFail = false →
      (reconcile env plan store reqName).isErr = false
      ∧ (reconcile env plan store reqName).requeue = true
      ∧ (reconcile env plan store reqName).requeueAfterMin = 0
      ∧ (reconcile env plan store reqName).ops =
          [Op.getDaemonSet d.name "directpv" GetOutcome.found,
           Op.getDeployment d.name "directpv" GetOutcome.found,
           Op.updateDeployment d.size true]
      ∧ findDeployment (reconcile env plan store reqName).cluster d.name "directpv" =
          some { w with replicas := d.size })
    ∧ (plan.updateDeploymentFail = true → plan.refetchDriftFail = false →
        plan.resizingStatusFail = false →
      (reconcile env plan store reqName).isErr = true
      ∧ (reconcile env plan store reqName).ops =
          [Op.getDaemonSet d.name "directpv" GetOutcome.found,
           Op.getDeployment d.name "directpv" GetOutcome.found,
           Op.updateDeployment d.size false, Op.refetch true,
           Op.updateStatus
             (setStatusCondition d.conditions (resizingCondition d.name storeErrMsg)) true]
      ∧ getDeployer (reconcile env plan store reqName).cluster reqName =
          some { d with conditions :=
            setStatusCondition d.conditions (resizingCondition d.name storeErrMsg) }) := by
  obtain ⟨hwn, hwns⟩ := findDeployment_some hdep
  have hdep2 : store.deployments.find?
      (fun x => x.name == w.name && x.nspace == w.nspace) = some w := by
    rw [hwn, hwns]
    exact hdep
  have hr : reconcile env plan store reqName =
      withOps [Op.getDaemonSet d.name "directpv" GetOutcome.found,
               Op.getDeployment d.name "directpv" GetOutcome.found]
        (driftPhase plan store d w reqName) := by
    unfold reconcile livePhase deletionOrConverge daemonSetPhase deploymentPhase
    rw [hplan, hfound]
    simp only [Bool.false_eq_true, if_false, hconds, hfin, if_true, hts,
      Option.isSome_none, hdsGet, hds, hdepGet, hdep, withOps]
    rfl
  constructor
  · intro hupd
    unfold driftPhase at hr
    rw [hdrift, hupd] at hr
    simp only [Bool.false_eq_true, if_false, okPass, withOps] at hr
    rw [hr]
    refine ⟨rfl, rfl, rfl, rfl, ?_⟩
    show findDeployment (setDeploymentReplicas store w.name w.nspace d.size)
      d.name "directpv" = some { w with replicas := d.size }
    rw [← hwn, ← hwns]
    unfold findDeployment setDeploymentReplicas
    exact find_setReplicas _ _ _ _ _ hdep2
  · intro hupd hrf hrs
    unfold driftPhase at hr
    rw [hdrift, hupd, hrf, hrs, hfound] at hr
    simp only [Bool.false_eq_true, if_false, if_true, errPass, withOps] at hr
    rw [hr]
    refine ⟨rfl, rfl, ?_⟩
    exact getDeployer_writeStatus hfound _


/-- C8: when the ServiceWorkload is absent and its creation succeeds, the
pass ends with a one-minute delayed requeue and the replica-drift check is
not run (the trace contains no replica update). -/
theorem C8_service_create_delayed (env : GoEnv) (plan : FailPlan) (store : Cluster)
    (reqName : String) (d : Deployer) (ds0 : DaemonSetObj) (dep : DeploymentObj)
    (hplan : plan.getDeployerErr = false)
    (hfound : getDeployer store reqName = some d)
    (hconds : d.conditions.isEmpty = false)
    (hfin : containsFinalizer d deployerFinalizer = true)
    (hts : d.deletionTimestamp = none)
    (hdsGet : plan.getDaemonSetErr = false)
    (hds : findDaemonSet store d.name "directpv" = some ds0)
    (hdepGet : plan.getDeploymentErr = false)
    (hdep : findDeployment store d.name "directpv" = none)
    (hbuild : deploymentForDeployer env d = PanicOr.ok (Except.ok dep))
    (hexists : findDeployment store dep.name dep.nspace = none)
    (hcreate : plan.createDeploymentFail = false) :
    (reconcile env plan store reqName).isErr = false
    ∧ (reconcile env plan store reqName).requeue = false
    ∧ (reconcile env plan store reqName).requeueAfterMin = 1
    ∧ (reconcile env plan store reqName).ops =
        [Op.getDaemonSet d.name "directpv" GetOutcome.found,
         Op.getDeployment d.name "directpv" GetOutcome.notFound,
         Op.createDeployment dep.name dep.nspace true]
    ∧ (reconcile env plan store reqName).cluster = addDeployment store dep := by
  have hr : reconcile env plan store reqName =
      withOps [Op.getDaemonSet d.name "directpv" GetOutcome.found]
        (deploymentPhase env plan store d reqName) := by
    unfold reconcile livePhase deletionOrConverge daemonSetPhase
    rw [hplan, hfound]
    simp only [Bool.false_eq_true, if_false, hconds, hfin, if_true, hts,
      Option.isSome_none, hdsGet, hds]
  unfold deploymentPhase at hr
  simp only [hdepGet, hdep, hbuild, hexists, hcreate, Bool.false_eq_true, if_false,
    Option.isSome_none, Bool.false_or, okPass, withOps] at hr
  rw [hr]
  exact ⟨rfl, rfl, rfl, rfl, rfl⟩


/-- C1 amended: after a successful AgentWorkload (DaemonSet) creation the
pass does not end; it continues in the same pass with the ServiceWorkload
lookup (the next operation in the trace is the Deployment lookup). -/
theorem C1_agent_create_falls_through (env : GoEnv) (plan : FailPlan) (store : Cluster)
    (reqName : String) (d : Deployer) (ds : DaemonSetObj)
    (hplan : plan.getDeployerErr = false)
    (hfound : getDeployer store reqName = some d)
    (hconds : d.conditions.isEmpty = false)
    (hfin : containsFinalizer d deployerFinalizer = true)
    (hts : d.deletionTimestamp = none)
    (hdsGet : plan.getDaemonSetErr = false)
    (hds : findDaemonSet store d.name "directpv" = none)
    (hbuild : daemonSetForDeployer env d = PanicOr.ok (Except.ok ds))
    (hexists : findDaemonSet store ds.name ds.nspace = none)
    (hcreate : plan.createDaemonSetFail = false) :
    ∃ o rest, (reconcile env plan store reqName).ops =
      Op.getDaemonSet d.name "directpv" GetOutcome.notFound ::
        Op.createDaemonSet ds.name ds.nspace true ::
          Op.getDeployment d.name "directpv" o :: rest := by
  have hr : reconcile env plan store reqName =
      withOps [Op.getDaemonSet d.name "directpv" GetOutcome.notFound,
               Op.createDaemonSet ds.name ds.nspace true]
        (deploymentPhase env plan (addDaemonSet store ds) d reqName) := by
    unfold reconcile livePhase deletionOrConverge daemonSetPhase
    rw [hplan, hfound]
    simp only [Bool.false_eq_true, if_false, hconds, hfin, if_true, hts,
      Option.isSome_none, hdsGet, hds, hbuild, hexists, hcreate, Bool.false_or]
  obtain ⟨o, rest, hshape⟩ :=
    deploymentPhase_ops_shape env plan (addDaemonSet store ds) d reqName
  refine ⟨o, rest, ?_⟩
  rw [hr]
  simp [withOps, hshape]


/-- C3 amended: the add-finalizer transition fires whenever the finalizer is
absent after status initialization, with no deletion-timestamp guard, so it
also fires on a deletion-marked resource whose finalizer was already
removed (the deletion timestamp of the resource is unconstrained here). -/
theorem C3_finalizer_add_unguarded (env : GoEnv) (plan : FailPlan) (store : Cluster)
    (reqName : String) (d : Deployer)
    (hplan : plan.getDeployerErr = false)
    (hfound : getDeployer store reqName = some d)
    (hconds : d.conditions.isEmpty = false)
    (hnofin : containsFinalizer d deployerFinalizer = false)
    (hadd : plan.addFinUpdateFail = false) :
    (reconcile env plan store reqName).ops.head? =
      some (Op.updateObj (d.finalizers ++ [deployerFinalizer]) true) := by
  unfold reconcile livePhase
  rw [hplan, hfound]
  simp only [hconds, Bool.false_eq_true, if_false, hnofin, hadd, withOps]
  rfl


/-- C4 amended: a pass on a deletion-marked resource whose finalizer is
absent is not a no-op: it first re-adds the finalizer (a persisted write),
then runs the full cleanup sequence (two status writes, the event, the
finalizer removal) and returns success with no requeue. -/
theorem C4_deletion_nofin_pass (env : GoEnv) (plan : FailPlan) (store : Cluster)
    (reqName : String) (d : Deployer)
    (hplan : plan.getDeployerErr = false)
    (hfound : getDeployer store reqName = some d)
    (hconds : d.conditions.isEmpty = false)
    (hts : d.deletionTimestamp.isSome = true)
    (hnofin : containsFinalizer d deployerFinalizer = false)
    (hp1 : plan.addFinUpdateFail = false)
    (hp2 : plan.degradedUnknownFail = false)
    (hp3 : plan.refetchDelFail = false)
    (hp4 : plan.degradedTrueFail = false)
    (hp5 : plan.removeFinUpdateFail = false) :
    (reconcile env plan store reqName).isErr = false
    ∧ (reconcile env plan store reqName).requeue = false
    ∧ (reconcile env plan store reqName).requeueAfterMin = 0
    ∧ (reconcile env plan store reqName).ops =
        [Op.updateObj (d.finalizers ++ [deployerFinalizer]) true,
         Op.updateStatus (setStatusCondition d.conditions (degradedUnknownCondition d.name))
           true,
         Op.emitEvent "Warning" "Deleting", Op.refetch true,
         Op.updateStatus
           (setStatusCondition
             (setStatusCondition d.conditions (degradedUnknownCondition d.name))
             (degradedTrueCondition d.name)) true,
         Op.updateObj
           ((d.finalizers ++ [deployerFinalizer]).filter (fun f => f != deployerFinalizer))
           true] := by
  have h1 := getDeployer_writeFinalizers hfound (d.finalizers ++ [deployerFinalizer])
  have h2 := getDeployer_writeStatus h1
    (setStatusCondition d.conditions (degradedUnknownCondition d.name))
  have hnofin2 : d.finalizers.contains deployerFinalizer = false := hnofin
  have happ : (d.finalizers ++ [deployerFinalizer]).contains deployerFinalizer = true :=
    contains_append_self _ _
  unfold reconcile livePhase deletionOrConverge deletionPhase
  rw [hplan, hfound]
  simp only [hconds, Bool.false_eq_true, if_false, containsFinalizer, hnofin2, happ,
    hp1, hts, if_true, hp2, hp3, hp4, hp5, h2, withOps, okPass, errPass]
  exact ⟨trivial, trivial, trivial, rfl⟩


/-- C9 amended: each pass through the deletion branch emits the cleanup
event exactly once, and the finalizer-removal write is the last operation,
after the event; when the removal update fails the store keeps the
finalizer, so a replayed pass emits the event again (at most once per pass,
not per deletion). -/
theorem C9_deletion_pass_event_order (env : GoEnv) (plan : FailPlan) (store : Cluster)
    (reqName : String) (d : Deployer)
    (hplan : plan.getDeployerErr = false)
    (hfound : getDeployer store reqName = some d)
    (hconds : d.conditions.isEmpty = false)
    (hfin : containsFinalizer d deployerFinalizer = true)
    (hts : d.deletionTimestamp.isSome = true)
    (hp2 : plan.degradedUnknownFail = false)
    (hp3 : plan.refetchDelFail = false)
    (hp4 : plan.degradedTrueFail = false) :
    (reconcile env plan store reqName).ops =
      [Op.updateStatus (setStatusCondition d.conditions (degradedUnknownCondition d.name))
         true,
       Op.emitEvent "Warning" "Deleting", Op.refetch true,
       Op.updateStatus
         (setStatusCondition
           (setStatusCondition d.conditions (degradedUnknownCondition d.name))
           (degradedTrueCondition d.name)) true,
       Op.updateObj (d.finalizers.filter (fun f => f != deployerFinalizer))
         (!plan.removeFinUpdateFail)]
    ∧ ((reconcile env plan store reqName).ops.filter Op.isEvent).length = 1
    ∧ (plan.removeFinUpdateFail = true →
        (reconcile env plan store reqName).isErr = true
        ∧ getDeployer (reconcile env plan store reqName).cluster reqName =
            some
              { d with
                conditions :=
                  setStatusCondition
                    (setStatusCondition d.conditions (degradedUnknownCondition d.name))
                    (degradedTrueCondition d.name) })
    ∧ (plan.removeFinUpdateFail = false →
        (reconcile env plan store reqName).isErr = false
        ∧ getDeployer (reconcile env plan store reqName).cluster reqName =
            some
              { d with
                conditions :=
                  setStatusCondition
                    (setStatusCondition d.conditions (degradedUnknownCondition d.name))
                    (degradedTrueCondition d.name),
                finalizers := d.finalizers.filter (fun f => f != deployerFinalizer) }) := by
  have h2 := getDeployer_writeStatus hfound
    (setStatusCondition d.conditions (degradedUnknownCondition d.name))
  have h3 := getDeployer_writeStatus h2
    (setStatusCondition
      (setStatusCondition d.conditions (degradedUnknownCondition d.name))
      (degradedTrueCondition d.name))
  have h4 := getDeployer_writeFinalizers h3
    (d.finalizers.filter (fun f => f != deployerFinalizer))
  have hfin2 : d.finalizers.contains deployerFinalizer = true := hfin
  unfold reconcile livePhase deletionOrConverge deletionPhase
  rw [hplan, hfound]
  cases hb : plan.removeFinUpdateFail with
  | true =>
    simp only [hconds, Bool.false_eq_true, if_false, containsFinalizer, hfin2, hts,
      if_true, hp2, hp3, hp4, hb, h2, h3, withOps, okPass, errPass, Op.isEvent,
      List.filter, Bool.not_true]
    exact ⟨trivial, rfl, fun _ => ⟨trivial, trivial⟩, fun hcon => by cases hcon⟩
  | false =>
    simp only [hconds, Bool.false_eq_true, if_false, containsFinalizer, hfin2, hts,
      if_true, hp2, hp3, hp4, hb, h2, h3, h4, withOps, okPass, errPass, Op.isEvent,
      List.filter, Bool.not_false]
    exact ⟨trivial, rfl, fun hcon => hcon.elim, fun _ => ⟨trivial, trivial⟩⟩


/-- C5 amended: a pass on a resource in steady state issues exactly one
status-update write whose content equals the stored status, leaves the
Resource Store unchanged, and returns success with no requeue; repeated
invocation is therefore idempotent on the store state. -/
theorem C5_steady_idempotent (env : GoEnv) (plan : FailPlan) (store : Cluster)
    (reqName : String) (d : Deployer) (ds0 : DaemonSetObj) (w : DeploymentObj)
    (hplan : plan.getDeployerErr = false)
    (hfound : getDeployer store reqName = some d)
    (hconds : d.conditions.isEmpty = false)
    (hfin : containsFinalizer d deployerFinalizer = true)
    (hts : d.deletionTimestamp = none)
    (hdsGet : plan.getDaemonSetErr = false)
    (hds : findDaemonSet store d.name "directpv" = some ds0)
    (hdepGet : plan.getDeploymentErr = false)
    (hdep : findDeployment store d.name "directpv" = some w)
    (heq : (w.replicas == d.size) = true)
    (hsteady : setStatusCondition d.conditions (steadyCondition d.name d.size) =
      d.conditions)
    (havail : plan.availableStatusFail = false) :
    (reconcile env plan store reqName).isErr = false
    ∧ (reconcile env plan store reqName).requeue = false
    ∧ (reconcile env plan store reqName).requeueAfterMin = 0
    ∧ (reconcile env plan store reqName).ops =
        [Op.getDaemonSet d.name "directpv" GetOutcome.found,
         Op.getDeployment d.name "directpv" GetOutcome.found,
         Op.updateStatus d.conditions true]
    ∧ (reconcile env plan store reqName).cluster = store := by
  have hws := writeStatus_self hfound
  unfold reconcile livePhase deletionOrConverge daemonSetPhase deploymentPhase
    driftPhase steadyPhase
  rw [hplan, hfound]
  simp only [hconds, Bool.false_eq_true, if_false, hfin, if_true, hts,
    Option.isSome_none, hdsGet, hds, hdepGet, hdep, heq, hsteady, havail, hws,
    withOps, okPass]
  exact ⟨trivial, trivial, trivial, rfl, trivial⟩


/-- Splitting a string that does not contain the separator yields the whole
string as the single fragment. -/
theorem goSplit_no_sep (s : String) (sep : Char) (h : sep ∉ s.data) :
    goSplit s sep = [s] := by
  unfold goSplit
  unfold List.splitOn
  rw [List.splitOnP_eq_single]
  · rfl
  · intro x hx
    simp only [beq_iff_eq]
    intro hxx
    exact h (hxx ▸ hx)


/-- C10: when DIRECTPV_IMAGE is set to a string with no colon, label
derivation panics on the out-of-range index, and both child-workload
builders, which compute labels first, abort with that panic. -/
theorem C10_labels_panic (env : GoEnv) (s name : String) (d : Deployer)
    (himg : lookupEnv env "DIRECTPV_IMAGE" = some s)
    (hnc : ':' ∉ s.data) :
    labelsForMemcached env name = PanicOr.panicked
    ∧ daemonSetForDeployer env d = PanicOr.panicked
    ∧ deploymentForDeployer env d = PanicOr.panicked := by
  have hsplit : goSplit s ':' = [s] := goSplit_no_sep s ':' hnc
  have hlab : labelsForMemcached env name = PanicOr.panicked := by
    unfold labelsForMemcached imageForDeployer
    simp only [himg, hsplit]
    rfl
  have hlab2 : labelsForMemcached env d.name = PanicOr.panicked := by
    unfold labelsForMemcached imageForDeployer
    simp only [himg, hsplit]
    rfl
  refine ⟨hlab, ?_, ?_⟩
  · unfold daemonSetForDeployer
    rw [hlab2]
  · unfold deploymentForDeployer
    rw [hlab2]

/-! ### Witnesses: each general theorem applied at a concrete input -/

/-- A brand-new resource: empty conditions, no finalizer. -/
def freshDeployer : Deployer :=
  { name := "deployer-sample", nspace := "directpv", size := 3 }

def freshCluster : Cluster := { deployer := some freshDeployer }

/-- A Deployment whose replica count (5) drifted from the spec (3). -/
def driftDep : DeploymentObj :=
  { name := "deployer-sample", nspace := "directpv", replicas := 5 }

def driftCluster : Cluster :=
  { deployer := some liveDeployer, daemonSets := [steadyDS],
    deployments := [driftDep] }

/-- DaemonSet present, Deployment absent. -/
def c8Cluster : Cluster :=
  { deployer := some liveDeployer, daemonSets := [steadyDS] }

/-- The Deployment the builder produces for the sample resource. -/
def builtDep : DeploymentObj :=
  { name := "deployer-sample", nspace := "directpv", replicas := 3,
    matchLabels := labelList "deployer-sample" "v4",
    images := ["provisioner:v2", "quay.io/minio/directpv:v4", "resizer:v1"],
    ownerName := "deployer-sample" }

/-- An environment whose DIRECTPV_IMAGE value has no colon. -/
def envNoColon : GoEnv := [("DIRECTPV_IMAGE", "directpv-image")]

/-- C6 witness: on the fresh resource the first persisted write is the
initial `Available=Unknown` condition. -/
theorem C6_status_initialized_first_witness :
    ((reconcile envGood {} freshCluster "deployer-sample").ops.filter
        Op.isWrite).head? = some (Op.updateStatus [initialCondition] true) :=
  (C6_status_initialized_first envGood {} freshCluster "deployer-sample"
    freshDeployer rfl rfl rfl).1

/-- C7 witness: with replicas 5 against spec 3 the pass requests an
immediate requeue. -/
theorem C7_drift_correction_witness :
    (reconcile envGood {} driftCluster "deployer-sample").requeue = true :=
  ((C7_drift_correction envGood {} driftCluster "deployer-sample" liveDeployer
    steadyDS driftDep rfl rfl rfl rfl rfl rfl rfl rfl rfl (by decide)).1 rfl).2.1

/-- C8 witness: the pass creating the Deployment ends with a one-minute
delayed requeue. -/
theorem C8_service_create_delayed_witness :
    (reconcile envGood {} c8Cluster "deployer-sample").requeueAfterMin = 1 :=
  (C8_service_create_delayed envGood {} c8Cluster "deployer-sample" liveDeployer
    steadyDS builtDep rfl rfl rfl rfl rfl rfl rfl rfl rfl (by decide) rfl
    rfl).2.2.1

/-- C1 witness: the pass that creates the DaemonSet continues with the
Deployment lookup. -/
theorem C1_agent_create_falls_through_witness :
    ∃ o rest, (reconcile envGood {} bareCluster "deployer-sample").ops =
      Op.getDaemonSet "deployer-sample" "directpv" GetOutcome.notFound ::
        Op.createDaemonSet "node-server" "directpv" true ::
          Op.getDeployment "deployer-sample" "directpv" o :: rest :=
  C1_agent_create_falls_through envGood {} bareCluster "deployer-sample"
    liveDeployer builtNodeServerDS rfl rfl rfl rfl rfl rfl rfl (by decide) rfl
    rfl

/-- C3 witness: on the deletion-marked, finalizer-free resource the pass
starts by persisting the re-added finalizer. -/
theorem C3_finalizer_add_unguarded_witness :
    (reconcile envGood {} delNoFinCluster "deployer-sample").ops.head? =
      some (Op.updateObj [deployerFinalizer] true) :=
  C3_finalizer_add_unguarded envGood {} delNoFinCluster "deployer-sample"
    delNoFinDeployer rfl rfl rfl rfl rfl

/-- C4 witness: the deletion-marked, finalizer-free pass returns success. -/
theorem C4_deletion_nofin_pass_witness :
    (reconcile envGood {} delNoFinCluster "deployer-sample").isErr = false :=
  (C4_deletion_nofin_pass envGood {} delNoFinCluster "deployer-sample"
    delNoFinDeployer rfl rfl rfl rfl rfl rfl rfl rfl rfl rfl).1

/-- C9 witness: one deletion pass emits exactly one cleanup event. -/
theorem C9_deletion_pass_event_order_witness :
    ((reconcile envGood {} delFinCluster "deployer-sample").ops.filter
        Op.isEvent).length = 1 :=
  (C9_deletion_pass_event_order envGood {} delFinCluster "deployer-sample"
    delFinDeployer rfl rfl rfl rfl rfl rfl rfl rfl).2.1

/-- C5 witness: the steady-state pass leaves the store unchanged. -/
theorem C5_steady_idempotent_witness :
    (reconcile envGood {} steadyCluster "deployer-sample").cluster =
      steadyCluster :=
  (C5_steady_idempotent envGood {} steadyCluster "deployer-sample"
    steadyDeployer steadyDS steadyDep rfl rfl rfl rfl rfl rfl rfl rfl rfl rfl
    (by decide) rfl).2.2.2.2

/-- C10 witness: a colon-free DIRECTPV_IMAGE value makes label derivation and
both builders panic. -/
theorem C10_labels_panic_witness :
    labelsForMemcached envNoColon "x" = PanicOr.panicked
    ∧ daemonSetForDeployer envNoColon liveDeployer = PanicOr.panicked
    ∧ deploymentForDeployer envNoColon liveDeployer = PanicOr.panicked :=
  C10_labels_panic envNoColon "directpv-image" "x" liveDeployer rfl (by decide)
